import Mathlib

/-!
Shallow embedding of `bulk_import.py` (repository `ywolovitz/axio`).

The script drives monthly-windowed bulk imports against a local HTTP server:
`generate_date_ranges` computes the calendar-month windows from the fixed
start date 2025-06-29 through "now"; `make_filtered_import_request` issues one
POST per attempt with bounded retries and exponential backoff;
`test_server_connectivity` is a one-shot health probe; `main` drives the
nested (window × data type) iteration, collects results, saves them and
prints a summary.

Modelling conventions:
- `datetime.now()` is passed in explicitly as a `Date` (year/month/day);
  the script's behaviour depends only on the calendar date.
- Network I/O is modelled by an environment function giving the outcome of
  each request; sleeps and issued requests are recorded in explicit traces.
- Python dict lookups with defaults (`d.get(k, v)`, `d.get(k) or {}`) are
  modelled by `Option` fields with `Option.getD`.
-/

namespace BulkImport

/-- A calendar date, standing for a Python `datetime` restricted to the
fields the script inspects (`.year`, `.month`, `.day`). -/
structure Date where
  year : Nat
  month : Nat
  day : Nat
deriving DecidableEq, Repr

/-- Month index: year * 12 + (month - 1).  Comparing two first-of-month
`datetime`s (as the loop in `generate_date_ranges` does with
`current <= end_date`, where `current` is always the first of a month at
midnight and `end_date` is "now") is equivalent to comparing month indices,
for any "now" with `day ≥ 1`. -/
def monthIdx (y m : Nat) : Nat := y * 12 + (m - 1)

/-- Lexicographic order on calendar dates (the order `datetime` comparison
induces on year/month/day). -/
def dateLe (a b : Date) : Prop :=
  a.year < b.year ∨
    (a.year = b.year ∧ (a.month < b.month ∨ (a.month = b.month ∧ a.day ≤ b.day)))

instance (a b : Date) : Decidable (dateLe a b) := by
  unfold dateLe; infer_instance

/-- Gregorian leap-year rule, as used by Python's `calendar` module. -/
def isLeapYear (y : Nat) : Bool :=
  (y % 4 == 0 && y % 100 != 0) || y % 400 == 0

/-- Number of days in month `m` of year `y`: models
`calendar.monthrange(y, m)[1]`. -/
def monthrange (y m : Nat) : Nat :=
  if m = 2 then (if isLeapYear y then 29 else 28)
  else if m = 4 ∨ m = 6 ∨ m = 9 ∨ m = 11 then 30
  else 31

/-- Zero-pad to two digits: models the Python format `{n:02d}` for `n ≥ 0`. -/
def pad2 (n : Nat) : String :=
  if n < 10 then "0" ++ Nat.repr n else Nat.repr n

/-- Zero-pad to four digits: models the Python format `{n:04d}` for `n ≥ 0`. -/
def pad4 (n : Nat) : String :=
  if n < 10 then "000" ++ Nat.repr n
  else if n < 100 then "00" ++ Nat.repr n
  else if n < 1000 then "0" ++ Nat.repr n
  else Nat.repr n

/-- The `f"{year:04d}-{month:02d}-{day:02d}"` date string of the script. -/
def fmtDate (y m d : Nat) : String :=
  pad4 y ++ "-" ++ pad2 m ++ "-" ++ pad2 d

/-- English month names, as produced by `strftime("%B")` in the C locale. -/
def monthName : Nat → String
  | 1 => "January"
  | 2 => "February"
  | 3 => "March"
  | 4 => "April"
  | 5 => "May"
  | 6 => "June"
  | 7 => "July"
  | 8 => "August"
  | 9 => "September"
  | 10 => "October"
  | 11 => "November"
  | 12 => "December"
  | _ => ""

/-- `datetime(year, month, 1).strftime("%B %Y")`. -/
def monthLabel (y m : Nat) : String := monthName m ++ " " ++ Nat.repr y

/-- One date window produced by `generate_date_ranges` (a Python dict with
keys `start_date`, `end_date`, `month_name`, `year`, `month`). -/
structure DateRange where
  start_date : String
  end_date : String
  month_name : String
  year : Nat
  month : Nat
deriving DecidableEq, Repr

/-- Loop body of `generate_date_ranges` for the month `(y, m)`: computes
`first_day` (29 only for June 2025), `last_day` (the day of "now" in the
current month, otherwise the month's last calendar day) and the formatted
window record. -/
def mkRange (now : Date) (y m : Nat) : DateRange :=
  let first_day := if m = 6 ∧ y = 2025 then 29 else 1
  let last_day := if y = now.year ∧ m = now.month then now.day else monthrange y m
  { start_date := fmtDate y m first_day
    end_date := fmtDate y m last_day
    month_name := monthLabel y m
    year := y
    month := m }

/-- `mkRange` with the month given as a month index. -/
def mkRangeIdx (now : Date) (idx : Nat) : DateRange :=
  mkRange now (idx / 12) (idx % 12 + 1)

/-- The `while current <= end_date` loop of `generate_date_ranges`, with
`current` carried as the pair `(y, m)` (its day is always 1).  The loop
condition `current <= end_date` is the month-index comparison (see
`monthIdx`).  `fuel` is a structural-recursion bound chosen strictly larger
than the number of iterations, so the `0` case is never reached (the
closed-form lemma below proves the exact while-loop semantics). -/
def genLoop (now : Date) : Nat → Nat → Nat → List DateRange
  | 0, _, _ => []
  | fuel + 1, y, m =>
    if monthIdx y m ≤ monthIdx now.year now.month then
      mkRange now y m ::
        (if m = 12 then genLoop now fuel (y + 1) 1 else genLoop now fuel y (m + 1))
    else []

/-- `generate_date_ranges`, parameterised by "now" (`datetime.now()` in the
script).  The fixed start date is 2025-06-29 and the loop variable starts at
`datetime(2025, 6, 1)`.  The fuel strictly exceeds the number of loop
iterations (which is at most `monthIdx now.year now.month + 1`). -/
def generate_date_ranges (now : Date) : List DateRange :=
  genLoop now (monthIdx now.year now.month + 2) 2025 6

/-! ## HTTP model -/

/-- HTTP method of a request the script issues. -/
inductive Method where
  | get
  | post
deriving DecidableEq, Repr

/-- JSON body of the POST: `{"id": ..., "startDate": ..., "endDate": ...}`. -/
structure Payload where
  id : String
  startDate : String
  endDate : String
deriving DecidableEq, Repr

/-- One HTTP request as the script issues it (URL, method, client-side
timeout in seconds, and JSON payload for POSTs). -/
structure HttpRequest where
  method : Method
  url : String
  timeout : Nat
  payload : Option Payload
deriving DecidableEq, Repr

/-- `SERVER_URL` constant of the script. -/
def SERVER_URL : String := "http://localhost:3000"

/-- `ENDPOINT` constant of the script. -/
def ENDPOINT : String := "/import-filtered-data"

/-- The POST request issued by one attempt of `make_filtered_import_request`
(line `requests.post(url, json=payload, headers=headers, timeout=300)`). -/
def requestFor (export_id start_date end_date : String) : HttpRequest :=
  { method := Method.post
    url := SERVER_URL ++ ENDPOINT
    timeout := 300
    payload := some { id := export_id, startDate := start_date, endDate := end_date } }

/-- The GET issued by `test_server_connectivity`
(line `requests.get(f"{SERVER_URL}/health", timeout=10)`). -/
def healthRequest : HttpRequest :=
  { method := Method.get
    url := SERVER_URL ++ "/health"
    timeout := 10
    payload := none }

/-- `response["results"]["jsonFile"]` as consumed by the script. -/
structure JsonFileData where
  filename : Option String
deriving DecidableEq, Repr

/-- `response["results"]["database"]` as consumed by the script. -/
structure DatabaseData where
  recordsInserted : Option Nat
  duplicatesSkipped : Option Nat
deriving DecidableEq, Repr

/-- `response["results"]` as consumed by the script.  A field that is absent
from the JSON (or, for `database`/`jsonFile`, present as `null`) is `none`. -/
structure ResultsData where
  filteredRecordsFound : Option Nat
  database : Option DatabaseData
  jsonFile : Option JsonFileData
deriving DecidableEq, Repr

/-- A parsed JSON response body, restricted to the keys the script reads.
`truthy` is the Python truthiness of the whole parsed value (`if result`);
`success` is the truthiness of `result.get('success')`. -/
structure ParsedBody where
  truthy : Bool
  success : Bool
  message : Option String
  results : Option ResultsData
  duration : Option String
deriving DecidableEq, Repr

/-- Outcome of one network call: either the client raised (connection error,
timeout, ...), or a response arrived with a status code, raw text, and a
parse outcome for `response.json()` (`.error` models `JSONDecodeError`). -/
inductive HttpOutcome where
  | exn (msg : String)
  | resp (status : Nat) (text : String) (body : Except String ParsedBody)
deriving Repr

/-! ## Import request executor (`make_filtered_import_request`) -/

/-- One entry of `EXPORT_MAPPINGS` (the `data_info` dict). -/
structure DataInfo where
  name : String
  emoji : String
  description : String
deriving DecidableEq, Repr

/-- The result dict returned by `make_filtered_import_request`: either the
success record built on HTTP 200 + parseable body + `success` flag, or the
failure record built after the last failed attempt. -/
inductive ImportResult where
  | success (export_id data_type : String)
      (records_found records_inserted duplicates_skipped : Nat)
      (duration json_file : String)
  | failure (export_id data_type : String) (error : String)
deriving DecidableEq, Repr

/-- The `data_type` field present in both result variants. -/
def ImportResult.dataType : ImportResult → String
  | .success _ dt _ _ _ _ _ => dt
  | .failure _ dt _ => dt

/-- The `export_id` field present in both result variants. -/
def ImportResult.exportIdOf : ImportResult → String
  | .success eid _ _ _ _ _ _ => eid
  | .failure eid _ _ => eid

/-- The `success` field of the result dict. -/
def ImportResult.isSuccess : ImportResult → Bool
  | .success _ _ _ _ _ _ _ => true
  | .failure _ _ _ => false

/-- The `error` field of a failure result (`""` for a success result, which
has no such key). -/
def ImportResult.errorOf : ImportResult → String
  | .success _ _ _ _ _ _ _ => ""
  | .failure _ _ e => e

/-- Body of one attempt of `make_filtered_import_request` (the `try` block,
lines 86-123): classifies the outcome of the POST into the returned success
record or the message of the exception raised (all raises in the block are
`ValueError`s whose `str` is the message; a transport exception keeps its own
message).  `.error` feeds the `except` clause of the source. -/
def runAttempt (outcome : HttpOutcome) (export_id : String) (data_info : DataInfo) :
    Except String ImportResult :=
  match outcome with
  | .exn msg => .error msg
  | .resp status text body =>
    if status = 200 then
      match body with
      | .ok result =>
        if result.truthy && result.success then
          let results_data := result.results.getD
            { filteredRecordsFound := none, database := none, jsonFile := none }
          let database_data := results_data.database.getD
            { recordsInserted := none, duplicatesSkipped := none }
          .ok (.success export_id data_info.name
            (results_data.filteredRecordsFound.getD 0)
            (database_data.recordsInserted.getD 0)
            (database_data.duplicatesSkipped.getD 0)
            (result.duration.getD "Unknown")
            ((results_data.jsonFile.getD { filename := none }).filename.getD "N/A"))
        else
          .error ("Response error: " ++
            (if result.truthy then result.message.getD "Unknown error" else "Empty response"))
      | .error e =>
        .error ("Invalid JSON response: " ++ e ++ "\nRaw response: " ++ text.take 300)
    else
      .error ("HTTP " ++ Nat.repr status ++ " - " ++ text.take 300)

/-- Observable outcome of the retry loop: the returned value (`none` when
the `for` loop body never runs and the function falls off the end, returning
Python `None`), the number of attempts made, and the backoff sleeps
performed, in order. -/
structure RetryOut where
  result : Option ImportResult
  attempts : Nat
  sleeps : List Nat
deriving DecidableEq, Repr

/-- The `for attempt in range(1, max_retries + 1)` loop of
`make_filtered_import_request`: `attempt` is the 1-based attempt number,
`remaining` the number of iterations left (so `attempt < max_retries` holds
exactly when `remaining > 1`).  On a failed non-final attempt the script
sleeps `2 ** attempt` seconds and retries; on a failed final attempt it
returns the failure record built by `mkFail` from the last error message. -/
def retryLoop (step : Nat → Except String ImportResult)
    (mkFail : String → ImportResult) (attempt : Nat) : Nat → RetryOut
  | 0 => { result := none, attempts := attempt - 1, sleeps := [] }
  | r + 1 =>
    match step attempt with
    | .ok res => { result := some res, attempts := attempt, sleeps := [] }
    | .error e =>
      if r = 0 then
        { result := some (mkFail e), attempts := attempt, sleeps := [] }
      else
        let rest := retryLoop step mkFail (attempt + 1) r
        { result := rest.result, attempts := rest.attempts
          sleeps := 2 ^ attempt :: rest.sleeps }

/-- Full observable trace of one `make_filtered_import_request` call: the
retry loop's outcome plus the POST requests issued (one per attempt). -/
structure ExecTrace where
  result : Option ImportResult
  attempts : Nat
  sleeps : List Nat
  requests : List HttpRequest
deriving DecidableEq, Repr

/-- `make_filtered_import_request(export_id, start_date, end_date, data_info,
max_retries=3)`, parameterised by the backend's outcome for each attempt.
`max_retries` is a Python int, so it may be non-positive, in which case the
`for` loop body never runs (`range(1, n + 1)` is empty for `n ≤ 0`, i.e. the
loop runs `max_retries.toNat` times). -/
def make_filtered_import_request (backend : Nat → HttpOutcome)
    (export_id start_date end_date : String) (data_info : DataInfo)
    (max_retries : Int := 3) : ExecTrace :=
  let t := retryLoop (fun attempt => runAttempt (backend attempt) export_id data_info)
    (fun e => ImportResult.failure export_id data_info.name e) 1 max_retries.toNat
  { result := t.result, attempts := t.attempts, sleeps := t.sleeps
    requests := List.replicate t.attempts (requestFor export_id start_date end_date) }

/-! ## Connectivity probe, persistence, catalog -/

/-- `test_server_connectivity`: one GET to the health endpoint; `true` iff
HTTP 200 with a parseable JSON body.  (Any `RequestException` — including the
`JSONDecodeError` raised by `response.json()` in `requests ≥ 2.27` — is
caught and yields `False`.) -/
def test_server_connectivity (outcome : HttpOutcome) : Bool :=
  match outcome with
  | .exn _ => false
  | .resp status _ body =>
    if status = 200 then
      match body with
      | .ok _ => true
      | .error _ => false
    else false

/-- `save_results_to_file`: the file write either succeeds or raises, and any
exception is caught inside the function (it prints an error and returns
normally either way).  `writeOk` is whether the write succeeds; the returned
Bool is whether the results were saved. -/
def save_results_to_file (writeOk : Bool) : Bool := writeOk

/-- `EXPORT_MAPPINGS`: the fixed catalog of 10 export ids, in declaration
order (Python dicts preserve insertion order). -/
def EXPORT_MAPPINGS : List (String × DataInfo) :=
  [("5077534948", { name := "buildings", emoji := "🏢", description := "Building information" }),
   ("5002645397", { name := "cases", emoji := "📋", description := "Support cases and tickets" }),
   ("5002207692", { name := "conversations", emoji := "💬", description := "Conversation history" }),
   ("5053863837", { name := "interactions", emoji := "🔄", description := "User interactions" }),
   ("5157703494", { name := "nocInteractions", emoji := "🔧", description := "NOC interactions" }),
   ("4693855982", { name := "userStateInteractions", emoji := "👤", description := "User state changes" }),
   ("5157670999", { name := "users", emoji := "👥", description := "User accounts" }),
   ("5219392695", { name := "userSessionHistory", emoji := "📅", description := "Session history" }),
   ("20348692306", { name := "schedule", emoji := "📋", description := "Schedule data" }),
   ("20357111093", { name := "slaPolicy", emoji := "📊", description := "SLA policies" })]

/-! ## Orchestrator (`main`) -/

/-- One element of `all_results`: the executor's result dict after `main`
adds `month_name`, `start_date`, `end_date`, `operation_number` (and a
timestamp, not modelled — it carries no information the claims mention). -/
structure ResultRecord where
  base : ImportResult
  month_name : String
  start_date : String
  end_date : String
  operation_number : Nat
deriving DecidableEq, Repr

/-- The four assignments `result['month_name'] = ...` ... in `main`. -/
def decorate (r : ImportResult) (dr : DateRange) (op : Nat) : ResultRecord :=
  { base := r, month_name := dr.month_name, start_date := dr.start_date
    end_date := dr.end_date, operation_number := op }

/-- Accumulated state of the nested loops in `main`: results appended,
requests issued, and the running `operation_count`. -/
structure LoopOut where
  records : List ResultRecord
  reqs : List HttpRequest
  opCount : Nat
deriving Repr

/-- Inner loop of `main`: `for export_id, data_info in EXPORT_MAPPINGS.items()`.
`oo op attempt` is the backend outcome for attempt `attempt` of operation
number `op`.  The `none` branch of the executor's result is unreachable here
(the call uses the default `max_retries = 3`; see
`make_filtered_import_request_result_some`). -/
def innerLoop (oo : Nat → Nat → HttpOutcome) (dr : DateRange) :
    List (String × DataInfo) → Nat → LoopOut
  | [], c => { records := [], reqs := [], opCount := c }
  | (export_id, data_info) :: rest, c =>
    let t := make_filtered_import_request (oo (c + 1)) export_id
      dr.start_date dr.end_date data_info 3
    let tail := innerLoop oo dr rest (c + 1)
    { records := (t.result.map (fun r => decorate r dr (c + 1))).toList ++ tail.records
      reqs := t.requests ++ tail.reqs
      opCount := tail.opCount }

/-- Outer loop of `main`: `for date_range in date_ranges`. -/
def outerLoop (oo : Nat → Nat → HttpOutcome) :
    List DateRange → Nat → LoopOut
  | [], c => { records := [], reqs := [], opCount := c }
  | dr :: rest, c =>
    let h := innerLoop oo dr EXPORT_MAPPINGS c
    let t := outerLoop oo rest h.opCount
    { records := h.records ++ t.records, reqs := h.reqs ++ t.reqs, opCount := t.opCount }

/-- `len(sys.argv) > 1 and sys.argv[1] == '--auto'` (argv includes the
script name at position 0). -/
def autoMode (argv : List String) : Bool :=
  match argv with
  | _ :: a :: _ => a == "--auto"
  | _ => false

/-- `confirm.lower() in ['y', 'yes']`. -/
def confirmYes (s : String) : Bool :=
  s.toLower == "y" || s.toLower == "yes"

/-- The environment one run of the script observes: the health probe's
outcome, "now", the command line, the interactive confirmation input, the
backend outcome per (operation number, attempt), and whether the results
file write succeeds. -/
structure World where
  healthOutcome : HttpOutcome
  now : Date
  argv : List String
  confirmInput : String
  opOutcome : Nat → Nat → HttpOutcome
  saveOk : Bool

/-- Observable trace of one run of the script (`main` plus the `__main__`
exit-code handling): process exit code, every HTTP request issued in order,
the accumulated `all_results`, and the persistence/summary milestones. -/
structure MainTrace where
  exitCode : Nat
  requests : List HttpRequest
  results : List ResultRecord
  saveAttempted : Bool
  saveErrorReported : Bool
  summaryPrinted : Bool

/-- Whether the run proceeds past the confirmation gate. -/
def proceeds (w : World) : Bool := autoMode w.argv || confirmYes w.confirmInput

/-- `main` (lines 219-288): probe connectivity (aborting with `sys.exit(1)`
on failure, before any import request), generate the windows, gate on
`--auto` / the confirmation prompt (`sys.exit(0)` on cancellation), run the
nested import loops, save the results (non-fatally), print the summary, and
finish (process exit code 0). -/
def main (w : World) : MainTrace :=
  if test_server_connectivity w.healthOutcome then
    if autoMode w.argv || confirmYes w.confirmInput then
      let date_ranges := generate_date_ranges w.now
      let out := outerLoop w.opOutcome date_ranges 0
      let saved := save_results_to_file w.saveOk
      { exitCode := 0, requests := healthRequest :: out.reqs, results := out.records
        saveAttempted := true, saveErrorReported := !saved, summaryPrinted := true }
    else
      { exitCode := 0, requests := [healthRequest], results := []
        saveAttempted := false, saveErrorReported := false, summaryPrinted := false }
  else
    { exitCode := 1, requests := [healthRequest], results := []
      saveAttempted := false, saveErrorReported := false, summaryPrinted := false }

/-! ## Lemmas about the date-window generator -/

theorem monthIdx_def (y m : Nat) : monthIdx y m = y * 12 + (m - 1) := rfl

theorem mkRangeIdx_monthIdx (now : Date) (y m : Nat) (h1 : 1 ≤ m) (h2 : m ≤ 12) :
    mkRangeIdx now (monthIdx y m) = mkRange now y m := by
  unfold mkRangeIdx monthIdx
  congr 1
  · omega
  · omega

theorem genLoop_eq (now : Date) :
    ∀ (fuel y m : Nat), 1 ≤ m → m ≤ 12 →
      monthIdx now.year now.month + 1 - monthIdx y m ≤ fuel →
      genLoop now fuel y m =
        (List.range (monthIdx now.year now.month + 1 - monthIdx y m)).map
          (fun i => mkRangeIdx now (monthIdx y m + i)) := by
  intro fuel
  induction fuel with
  | zero =>
    intro y m _ _ hf
    have h0 : monthIdx now.year now.month + 1 - monthIdx y m = 0 := by omega
    rw [h0]
    rfl
  | succ f ih =>
    intro y m h1 h2 hf
    rw [genLoop]
    by_cases hc : monthIdx y m ≤ monthIdx now.year now.month
    · rw [if_pos hc]
      have hcount : monthIdx now.year now.month + 1 - monthIdx y m
          = (monthIdx now.year now.month - monthIdx y m) + 1 := by omega
      rw [hcount, List.range_succ_eq_map, List.map_cons, List.map_map]
      congr 1
      · have := mkRangeIdx_monthIdx now y m h1 h2
        simp [this]
      · by_cases hm : m = 12
        · subst hm
          rw [if_pos rfl]
          have hnext : monthIdx (y + 1) 1 = monthIdx y 12 + 1 := by
            simp only [monthIdx_def]; omega
          have hbound : monthIdx now.year now.month + 1 - monthIdx (y + 1) 1 ≤ f := by
            rw [hnext]; omega
          rw [ih (y + 1) 1 (by omega) (by omega) hbound, hnext]
          have hcnt : monthIdx now.year now.month + 1 - (monthIdx y 12 + 1)
              = monthIdx now.year now.month - monthIdx y 12 := by omega
          rw [hcnt]
          refine List.map_congr_left (fun i _ => ?_)
          simp only [Function.comp]
          congr 1
          omega
        · rw [if_neg hm]
          have hnext : monthIdx y (m + 1) = monthIdx y m + 1 := by
            simp only [monthIdx_def]; omega
          have hbound : monthIdx now.year now.month + 1 - monthIdx y (m + 1) ≤ f := by
            rw [hnext]; omega
          rw [ih y (m + 1) (by omega) (by omega) hbound, hnext]
          have hcnt : monthIdx now.year now.month + 1 - (monthIdx y m + 1)
              = monthIdx now.year now.month - monthIdx y m := by omega
          rw [hcnt]
          refine List.map_congr_left (fun i _ => ?_)
          simp only [Function.comp]
          congr 1
          omega
    · rw [if_neg hc]
      have h0 : monthIdx now.year now.month + 1 - monthIdx y m = 0 := by omega
      rw [h0]
      rfl

theorem generate_date_ranges_eq (now : Date) :
    generate_date_ranges now =
      (List.range (monthIdx now.year now.month + 1 - monthIdx 2025 6)).map
        (fun i => mkRangeIdx now (monthIdx 2025 6 + i)) := by
  unfold generate_date_ranges
  exact genLoop_eq now _ 2025 6 (by omega) (by omega) (by omega)

theorem generate_date_ranges_get (now : Date) (i : Nat)
    (hi : i < (generate_date_ranges now).length) :
    (generate_date_ranges now).get ⟨i, hi⟩ = mkRangeIdx now (monthIdx 2025 6 + i) := by
  revert hi
  rw [generate_date_ranges_eq now]
  intro hi
  simp

theorem generate_date_ranges_length (now : Date) :
    (generate_date_ranges now).length =
      monthIdx now.year now.month + 1 - monthIdx 2025 6 := by
  rw [generate_date_ranges_eq]
  simp

/-- C1: for every "now" on or after 2025-06-29, `generate_date_ranges` yields
one window per calendar month from June 2025 through the month of "now"
inclusive; the first window starts on day 29 and every later window on day 1;
every window ends on the last calendar day of its month except the final
window, which ends on the day of "now"; every window's end date is ≤ "now";
and for "now" = 2025-07-15 the result is exactly the two windows
2025-06-29..2025-06-30 and 2025-07-01..2025-07-15. -/
theorem generate_date_ranges_correct (now : Date)
    (hm1 : 1 ≤ now.month) (hm2 : now.month ≤ 12) (hd1 : 1 ≤ now.day)
    (hge : dateLe ⟨2025, 6, 29⟩ now) :
    ((generate_date_ranges now).length
        = monthIdx now.year now.month + 1 - monthIdx 2025 6) ∧
    (∀ i (h : i < (generate_date_ranges now).length),
      monthIdx ((generate_date_ranges now).get ⟨i, h⟩).year
          ((generate_date_ranges now).get ⟨i, h⟩).month = monthIdx 2025 6 + i ∧
      1 ≤ ((generate_date_ranges now).get ⟨i, h⟩).month ∧
      ((generate_date_ranges now).get ⟨i, h⟩).month ≤ 12 ∧
      ((generate_date_ranges now).get ⟨i, h⟩).start_date
        = fmtDate ((generate_date_ranges now).get ⟨i, h⟩).year
            ((generate_date_ranges now).get ⟨i, h⟩).month (if i = 0 then 29 else 1) ∧
      ((generate_date_ranges now).get ⟨i, h⟩).end_date
        = fmtDate ((generate_date_ranges now).get ⟨i, h⟩).year
            ((generate_date_ranges now).get ⟨i, h⟩).month
            (if i + 1 = (generate_date_ranges now).length then now.day
             else monthrange ((generate_date_ranges now).get ⟨i, h⟩).year
                    ((generate_date_ranges now).get ⟨i, h⟩).month) ∧
      dateLe
        { year := ((generate_date_ranges now).get ⟨i, h⟩).year
          month := ((generate_date_ranges now).get ⟨i, h⟩).month
          day := if i + 1 = (generate_date_ranges now).length then now.day
                 else monthrange ((generate_date_ranges now).get ⟨i, h⟩).year
                        ((generate_date_ranges now).get ⟨i, h⟩).month }
        now) ∧
    generate_date_ranges ⟨2025, 7, 15⟩ =
      [{ start_date := "2025-06-29", end_date := "2025-06-30"
         month_name := "June 2025", year := 2025, month := 6 },
       { start_date := "2025-07-01", end_date := "2025-07-15"
         month_name := "July 2025", year := 2025, month := 7 }] := by
  have hstart : monthIdx 2025 6 ≤ monthIdx now.year now.month := by
    simp only [dateLe] at hge
    simp only [monthIdx_def]
    omega
  refine ⟨generate_date_ranges_length now, ?_, by decide⟩
  intro i h
  have hi : i < monthIdx now.year now.month + 1 - monthIdx 2025 6 := by
    rw [← generate_date_ranges_length now]; exact h
  rw [generate_date_ranges_get now i h, generate_date_ranges_length now]
  simp only [mkRangeIdx, mkRange, monthIdx_def]
  simp only [monthIdx_def] at hstart hi
  have hiff : ((2025 * 12 + (6 - 1) + i) / 12 = now.year
        ∧ (2025 * 12 + (6 - 1) + i) % 12 + 1 = now.month) ↔
      i + 1 = now.year * 12 + (now.month - 1) + 1 - (2025 * 12 + (6 - 1)) := by
    omega
  refine ⟨by omega, by omega, by omega, ?_, ?_, ?_⟩
  · by_cases h0 : i = 0
    · subst h0
      have e1 : (2025 * 12 + (6 - 1) + 0) % 12 + 1 = 6 := by norm_num
      have e2 : (2025 * 12 + (6 - 1) + 0) / 12 = 2025 := by norm_num
      rw [if_pos ⟨e1, e2⟩, if_pos rfl]
    · have hno : ¬((2025 * 12 + (6 - 1) + i) % 12 + 1 = 6
          ∧ (2025 * 12 + (6 - 1) + i) / 12 = 2025) := by omega
      rw [if_neg hno, if_neg h0]
  · by_cases hfin : i + 1 = now.year * 12 + (now.month - 1) + 1 - (2025 * 12 + (6 - 1))
    · rw [if_pos (hiff.mpr hfin), if_pos hfin]
    · rw [if_neg (fun hc => hfin (hiff.mp hc)), if_neg hfin]
  · by_cases hfin : i + 1 = now.year * 12 + (now.month - 1) + 1 - (2025 * 12 + (6 - 1))
    · rw [if_pos hfin]
      have hym := hiff.mpr hfin
      simp only [dateLe]
      omega
    · rw [if_neg hfin]
      simp only [dateLe]
      omega

/-- Witness for C1 at "now" = 2025-07-15. -/
theorem generate_date_ranges_correct_witness :
    dateLe ⟨2025, 6, 29⟩ ⟨2025, 7, 15⟩ ∧
    (generate_date_ranges ⟨2025, 7, 15⟩).length
      = monthIdx 2025 7 + 1 - monthIdx 2025 6 :=
  ⟨by decide,
    (generate_date_ranges_correct ⟨2025, 7, 15⟩ (by decide) (by decide) (by decide)
      (by decide)).1⟩

/-- C7: the window generator is a pure, deterministic function of the fixed
start date and "now": two generations with the same "now" give identical
sequences. -/
theorem generate_date_ranges_deterministic (now1 now2 : Date) (h : now1 = now2) :
    generate_date_ranges now1 = generate_date_ranges now2 := by
  rw [h]

/-- Witness for C7. -/
theorem generate_date_ranges_deterministic_witness :
    generate_date_ranges ⟨2025, 7, 15⟩ = generate_date_ranges ⟨2025, 7, 15⟩ :=
  generate_date_ranges_deterministic ⟨2025, 7, 15⟩ ⟨2025, 7, 15⟩ rfl

/-! ## Lemmas about the retry loop -/

theorem retryLoop_all_fail (step : Nat → Except String ImportResult)
    (mkFail : String → ImportResult) (em : Nat → String) :
    ∀ (r a : Nat), 1 ≤ r → (∀ k, a ≤ k → k < a + r → step k = .error (em k)) →
    retryLoop step mkFail a r =
      { result := some (mkFail (em (a + r - 1))), attempts := a + r - 1
        sleeps := (List.range (r - 1)).map (fun i => 2 ^ (a + i)) } := by
  intro r
  induction r with
  | zero => intro a h1 _; omega
  | succ r ih =>
    intro a _ hfail
    rw [retryLoop]
    rw [hfail a (le_refl a) (by omega)]
    dsimp only
    cases r with
    | zero =>
      rw [if_pos rfl]
      simp
    | succ r' =>
      rw [if_neg (by omega : ¬ r' + 1 = 0)]
      rw [ih (a + 1) (by omega) (fun k hk1 hk2 => hfail k (by omega) (by omega))]
      simp only [RetryOut.mk.injEq]
      refine ⟨?_, by omega, ?_⟩
      · have : a + 1 + (r' + 1) - 1 = a + (r' + 1 + 1) - 1 := by omega
        rw [this]
      · have h1 : a + 1 + (r' + 1) - 1 = a + r' + 1 := by omega
        have h2 : r' + 1 + 1 - 1 = r' + 1 := by omega
        have h3 : r' + 1 - 1 = r' := by omega
        rw [h2, h3, List.range_succ_eq_map, List.map_cons, List.map_map]
        refine congrArg₂ _ (by simp) ?_
        refine List.map_congr_left (fun i _ => ?_)
        simp only [Function.comp]
        congr 1
        omega

theorem retryLoop_succeeds (step : Nat → Except String ImportResult)
    (mkFail : String → ImportResult) :
    ∀ (r a k : Nat) (v : ImportResult), a ≤ k → k < a + r → step k = .ok v →
      (∀ j, a ≤ j → j < k → ∃ e, step j = .error e) →
      retryLoop step mkFail a r =
        { result := some v, attempts := k
          sleeps := (List.range (k - a)).map (fun i => 2 ^ (a + i)) } := by
  intro r
  induction r with
  | zero => intro a k v h1 h2 _ _; omega
  | succ r ih =>
    intro a k v hak hkr hok hprev
    by_cases hka : k = a
    · subst hka
      rw [retryLoop, hok]
      dsimp only
      simp
    · obtain ⟨e, he⟩ := hprev a (le_refl a) (by omega)
      rw [retryLoop, he]
      dsimp only
      have hr : ¬ r = 0 := by omega
      rw [if_neg hr]
      rw [ih (a + 1) k v (by omega) (by omega) hok
        (fun j hj1 hj2 => hprev j (by omega) hj2)]
      simp only [RetryOut.mk.injEq]
      refine ⟨trivial, trivial, ?_⟩
      have hsplit : k - a = (k - (a + 1)) + 1 := by omega
      rw [hsplit, List.range_succ_eq_map, List.map_cons, List.map_map]
      refine congrArg₂ _ (by simp) ?_
      refine List.map_congr_left (fun i _ => ?_)
      simp only [Function.comp]
      congr 1
      omega

theorem retryLoop_result_prop (step : Nat → Except String ImportResult)
    (mkFail : String → ImportResult) (Q : ImportResult → Prop)
    (hok : ∀ k v, step k = .ok v → Q v) (hf : ∀ e, Q (mkFail e)) :
    ∀ (r a : Nat), 1 ≤ r →
      ∃ res, (retryLoop step mkFail a r).result = some res ∧ Q res := by
  intro r
  induction r with
  | zero => intro a h; omega
  | succ r ih =>
    intro a _
    cases hs : step a with
    | ok v =>
      refine ⟨v, ?_, hok a v hs⟩
      rw [retryLoop, hs]
    | error e =>
      cases r with
      | zero =>
        refine ⟨mkFail e, ?_, hf e⟩
        rw [retryLoop, hs]
        dsimp only
        rw [if_pos rfl]
      | succ r' =>
        obtain ⟨res, hres, hQ⟩ := ih (a + 1) (by omega)
        refine ⟨res, ?_, hQ⟩
        rw [retryLoop, hs]
        dsimp only
        rw [if_neg (by omega : ¬ r' + 1 = 0)]
        exact hres

theorem runAttempt_ok_shape (o : HttpOutcome) (export_id : String)
    (data_info : DataInfo) (v : ImportResult)
    (h : runAttempt o export_id data_info = .ok v) :
    v.dataType = data_info.name ∧ v.exportIdOf = export_id ∧ v.isSuccess = true := by
  cases o with
  | exn m => simp [runAttempt] at h
  | resp status text body =>
    by_cases hs : status = 200
    · subst hs
      cases body with
      | error e => simp [runAttempt] at h
      | ok result =>
        by_cases ht : (result.truthy && result.success) = true
        · simp [runAttempt, ht] at h
          rw [← h]
          exact ⟨rfl, rfl, rfl⟩
        · simp [runAttempt, ht] at h
    · simp [runAttempt, hs] at h

theorem make_filtered_import_request_result_some (backend : Nat → HttpOutcome)
    (export_id start_date end_date : String) (data_info : DataInfo)
    (N : Int) (hN : 1 ≤ N) :
    ∃ r, (make_filtered_import_request backend export_id start_date end_date
        data_info N).result = some r ∧
      r.dataType = data_info.name ∧ r.exportIdOf = export_id := by
  obtain ⟨res, hres, hQ⟩ := retryLoop_result_prop
    (fun attempt => runAttempt (backend attempt) export_id data_info)
    (fun e => ImportResult.failure export_id data_info.name e)
    (fun r => r.dataType = data_info.name ∧ r.exportIdOf = export_id)
    (fun k v hv => ⟨(runAttempt_ok_shape _ _ _ _ hv).1,
      (runAttempt_ok_shape _ _ _ _ hv).2.1⟩)
    (fun e => ⟨rfl, rfl⟩) N.toNat 1 (by omega)
  exact ⟨res, hres, hQ⟩

/-- C2: with `N ≥ 1` max attempts, a backend failing every attempt causes
exactly `N` attempts and then a failure result; a backend succeeding on
attempt `k ≤ N` (with all earlier attempts failing) causes exactly `k`
attempts, and the success record of attempt `k` is returned immediately. -/
theorem make_filtered_import_request_retry_bound (backend : Nat → HttpOutcome)
    (export_id start_date end_date : String) (data_info : DataInfo)
    (N : Int) (hN : 1 ≤ N) :
    (∀ em : Nat → String,
      (∀ (k : Nat), 1 ≤ k → (k : Int) ≤ N →
        runAttempt (backend k) export_id data_info = .error (em k)) →
      (make_filtered_import_request backend export_id start_date end_date
          data_info N).attempts = N.toNat ∧
      (make_filtered_import_request backend export_id start_date end_date
          data_info N).result
        = some (ImportResult.failure export_id data_info.name (em N.toNat))) ∧
    (∀ (k : Nat) (v : ImportResult), 1 ≤ k → (k : Int) ≤ N →
      runAttempt (backend k) export_id data_info = .ok v →
      (∀ j, 1 ≤ j → j < k →
        ∃ e, runAttempt (backend j) export_id data_info = .error e) →
      (make_filtered_import_request backend export_id start_date end_date
          data_info N).attempts = k ∧
      (make_filtered_import_request backend export_id start_date end_date
          data_info N).result = some v) := by
  constructor
  · intro em hfail
    have h := retryLoop_all_fail
      (fun attempt => runAttempt (backend attempt) export_id data_info)
      (fun e => ImportResult.failure export_id data_info.name e) em N.toNat 1
      (by omega) (fun k hk1 hk2 => hfail k hk1 (by omega))
    have h1 : 1 + N.toNat - 1 = N.toNat := by omega
    simp [make_filtered_import_request, h, h1]
  · intro k v hk1 hkN hok hprev
    have h := retryLoop_succeeds
      (fun attempt => runAttempt (backend attempt) export_id data_info)
      (fun e => ImportResult.failure export_id data_info.name e) N.toNat 1 k v
      hk1 (by omega) hok (fun j hj1 hj2 => hprev j hj1 hj2)
    simp [make_filtered_import_request, h]

/-- Fixed fail-every-time backend used by witnesses. -/
def backendFailW : Nat → HttpOutcome := fun _ => HttpOutcome.exn "boom"

/-- Fixed data-type descriptor used by witnesses. -/
def infoW : DataInfo :=
  { name := "buildings", emoji := "B", description := "Building information" }

/-- Witness for C2 at `N = 2` with a backend failing both attempts. -/
theorem make_filtered_import_request_retry_bound_witness :
    (1 : Int) ≤ 2 ∧
    ((make_filtered_import_request backendFailW "5077534948" "2025-06-29" "2025-06-30"
        infoW 2).attempts = (2 : Int).toNat ∧
     (make_filtered_import_request backendFailW "5077534948" "2025-06-29" "2025-06-30"
        infoW 2).result
       = some (ImportResult.failure "5077534948" infoW.name "boom")) :=
  ⟨by norm_num,
   (make_filtered_import_request_retry_bound backendFailW "5077534948" "2025-06-29"
      "2025-06-30" infoW 2 (by norm_num)).1 (fun _ => "boom") (fun k _ _ => rfl)⟩

/-- C6: with a backend failing all of `N ≥ 1` attempts, the executor sleeps
exactly `2 ^ attempt` seconds after every failed attempt except the last
(the i-th sleep, 0-based, follows 1-based attempt `i + 1`), and after the
last failed attempt returns the failure result carrying the last error
message with no further sleep (exactly `N - 1` sleeps in total). -/
theorem exponential_backoff_sleeps (backend : Nat → HttpOutcome)
    (export_id start_date end_date : String) (data_info : DataInfo)
    (N : Int) (hN : 1 ≤ N) (em : Nat → String)
    (hfail : ∀ (k : Nat), 1 ≤ k → (k : Int) ≤ N →
      runAttempt (backend k) export_id data_info = .error (em k)) :
    (make_filtered_import_request backend export_id start_date end_date
        data_info N).sleeps
      = (List.range (N.toNat - 1)).map (fun i => 2 ^ (i + 1)) ∧
    (make_filtered_import_request backend export_id start_date end_date
        data_info N).result
      = some (ImportResult.failure export_id data_info.name (em N.toNat)) ∧
    (make_filtered_import_request backend export_id start_date end_date
        data_info N).sleeps.length = N.toNat - 1 := by
  have h := retryLoop_all_fail
    (fun attempt => runAttempt (backend attempt) export_id data_info)
    (fun e => ImportResult.failure export_id data_info.name e) em N.toNat 1
    (by omega) (fun k hk1 hk2 => hfail k hk1 (by omega))
  simp only [make_filtered_import_request, h]
  have h1 : 1 + N.toNat - 1 = N.toNat := by omega
  rw [h1]
  refine ⟨?_, rfl, by simp⟩
  refine List.map_congr_left (fun i _ => ?_)
  congr 1
  omega

/-- Witness for C6 at `N = 3` with a backend failing all attempts. -/
theorem exponential_backoff_sleeps_witness :
    (1 : Int) ≤ 3 ∧
    (make_filtered_import_request backendFailW "5077534948" "2025-06-29" "2025-06-30"
        infoW 3).sleeps
      = (List.range ((3 : Int).toNat - 1)).map (fun i => 2 ^ (i + 1)) ∧
    (make_filtered_import_request backendFailW "5077534948" "2025-06-29" "2025-06-30"
        infoW 3).sleeps = [2, 4] :=
  ⟨by norm_num,
   (exponential_backoff_sleeps backendFailW "5077534948" "2025-06-29" "2025-06-30"
      infoW 3 (by norm_num) (fun _ => "boom") (fun k _ _ => rfl)).1,
   by decide⟩

/-- C5: against a backend answering HTTP 500 on every attempt, the call with
`max_retries = 3` returns a failure result (`success = false`) whose error
message contains the substring "HTTP 500". -/
theorem http500_gives_failure_result (backend : Nat → HttpOutcome)
    (export_id start_date end_date : String) (data_info : DataInfo)
    (text : Nat → String) (body : Nat → Except String ParsedBody)
    (hb : ∀ k, backend k = HttpOutcome.resp 500 (text k) (body k)) :
    ∃ r, (make_filtered_import_request backend export_id start_date end_date
        data_info 3).result = some r ∧
      r.isSuccess = false ∧
      ∃ s t, r.errorOf = s ++ "HTTP 500" ++ t := by
  have hr : (make_filtered_import_request backend export_id start_date end_date
      data_info 3).result
        = some (ImportResult.failure export_id data_info.name
            ("HTTP " ++ Nat.repr 500 ++ " - " ++ (text (3 : Int).toNat).take 300)) := by
    have hstep : ∀ (k : Nat), 1 ≤ k → k < 1 + (3 : Int).toNat →
        runAttempt (backend k) export_id data_info
          = .error ("HTTP " ++ Nat.repr 500 ++ " - " ++ (text k).take 300) := by
      intro k _ _
      rw [hb k]
      rfl
    have h := retryLoop_all_fail
      (fun attempt => runAttempt (backend attempt) export_id data_info)
      (fun e => ImportResult.failure export_id data_info.name e)
      (fun k => "HTTP " ++ Nat.repr 500 ++ " - " ++ (text k).take 300)
      (3 : Int).toNat 1 (by norm_num) hstep
    norm_num at h
    rw [show Int.toNat 3 = 3 from rfl] at h
    simp [make_filtered_import_request, h]
  refine ⟨_, hr, rfl, "", " - " ++ (text (3 : Int).toNat).take 300, ?_⟩
  show "HTTP " ++ Nat.repr 500 ++ " - " ++ (text (3 : Int).toNat).take 300
      = "" ++ "HTTP 500" ++ (" - " ++ (text (3 : Int).toNat).take 300)
  have hlit : "HTTP " ++ Nat.repr 500 = "" ++ "HTTP 500" := rfl
  rw [String.append_assoc, ← hlit, String.append_assoc]

/-- Fixed HTTP-500 backend used by the C5 witness. -/
def backend500W : Nat → HttpOutcome :=
  fun _ => HttpOutcome.resp 500 "Internal Server Error" (.error "Expecting value")

/-- Witness for C5. -/
theorem http500_gives_failure_result_witness :
    ∃ r, (make_filtered_import_request backend500W "5077534948" "2025-06-29" "2025-06-30"
        infoW 3).result = some r ∧
      r.isSuccess = false ∧
      ∃ s t, r.errorOf = s ++ "HTTP 500" ++ t :=
  http500_gives_failure_result backend500W "5077534948" "2025-06-29" "2025-06-30"
    infoW (fun _ => "Internal Server Error") (fun _ => .error "Expecting value")
    (fun _ => rfl)

/-- C10: for `max_retries ≥ 1` the executor returns a result record (one of
the two documented variants); for `max_retries ≤ 0` the `for` loop body never
runs, no attempt or request is made, and the function returns Python `None`
(no result at all). -/
theorem nonpositive_retries_returns_none (backend : Nat → HttpOutcome)
    (export_id start_date end_date : String) (data_info : DataInfo) :
    (∀ N : Int, 1 ≤ N →
      ∃ r, (make_filtered_import_request backend export_id start_date end_date
          data_info N).result = some r) ∧
    (∀ N : Int, N ≤ 0 →
      (make_filtered_import_request backend export_id start_date end_date
          data_info N).result = none ∧
      (make_filtered_import_request backend export_id start_date end_date
          data_info N).attempts = 0 ∧
      (make_filtered_import_request backend export_id start_date end_date
          data_info N).requests = [] ∧
      (make_filtered_import_request backend export_id start_date end_date
          data_info N).sleeps = []) := by
  constructor
  · intro N hN
    obtain ⟨r, hr, _⟩ := make_filtered_import_request_result_some backend export_id
      start_date end_date data_info N hN
    exact ⟨r, hr⟩
  · intro N hN
    have h0 : N.toNat = 0 := by omega
    simp [make_filtered_import_request, h0, retryLoop]

/-- Witness for C10 at `max_retries = 0` and `max_retries = 1`. -/
theorem nonpositive_retries_returns_none_witness :
    ((make_filtered_import_request backendFailW "5077534948" "2025-06-29" "2025-06-30"
        infoW 0).result = none ∧
     (make_filtered_import_request backendFailW "5077534948" "2025-06-29" "2025-06-30"
        infoW 0).attempts = 0 ∧
     (make_filtered_import_request backendFailW "5077534948" "2025-06-29" "2025-06-30"
        infoW 0).requests = [] ∧
     (make_filtered_import_request backendFailW "5077534948" "2025-06-29" "2025-06-30"
        infoW 0).sleeps = []) ∧
    ∃ r, (make_filtered_import_request backendFailW "5077534948" "2025-06-29" "2025-06-30"
        infoW 1).result = some r :=
  ⟨(nonpositive_retries_returns_none backendFailW "5077534948" "2025-06-29" "2025-06-30"
      infoW).2 0 (by norm_num),
   (nonpositive_retries_returns_none backendFailW "5077534948" "2025-06-29" "2025-06-30"
      infoW).1 1 (by norm_num)⟩

/-! ## Lemmas about the orchestrator loops -/

/-- Default `DateRange` used only as the `List.getD` fallback in statements. -/
def dfltRange : DateRange :=
  { start_date := "", end_date := "", month_name := "", year := 0, month := 0 }

/-- Default catalog entry used only as the `List.getD` fallback. -/
def dfltEntry : String × DataInfo :=
  ("", { name := "", emoji := "", description := "" })

/-- Default `ImportResult` used only as the `Option.getD` fallback. -/
def dfltRes : ImportResult := ImportResult.failure "" "" ""

/-- Default `ResultRecord` used only as the `List.getD` fallback. -/
def dfltRec : ResultRecord :=
  { base := dfltRes, month_name := "", start_date := "", end_date := ""
    operation_number := 0 }

theorem listGetDAppendLeft {α : Type} (l₁ l₂ : List α) (i : Nat) (d : α)
    (h : i < l₁.length) : (l₁ ++ l₂).getD i d = l₁.getD i d := by
  simp [List.getD_eq_getElem?_getD, List.getElem?_append_left h]

theorem listGetDAppendRight {α : Type} (l₁ l₂ : List α) (i : Nat) (d : α)
    (h : l₁.length ≤ i) : (l₁ ++ l₂).getD i d = l₂.getD (i - l₁.length) d := by
  simp [List.getD_eq_getElem?_getD, List.getElem?_append_right h]

theorem innerLoop_cons (oo : Nat → Nat → HttpOutcome) (dr : DateRange)
    (eid : String) (info : DataInfo) (tl : List (String × DataInfo)) (c : Nat) :
    innerLoop oo dr ((eid, info) :: tl) c =
      { records :=
          ((make_filtered_import_request (oo (c + 1)) eid dr.start_date dr.end_date
              info 3).result.map (fun r => decorate r dr (c + 1))).toList
            ++ (innerLoop oo dr tl (c + 1)).records
        reqs := (make_filtered_import_request (oo (c + 1)) eid dr.start_date
              dr.end_date info 3).requests ++ (innerLoop oo dr tl (c + 1)).reqs
        opCount := (innerLoop oo dr tl (c + 1)).opCount } := rfl

theorem innerLoop_opCount (oo : Nat → Nat → HttpOutcome) (dr : DateRange) :
    ∀ (l : List (String × DataInfo)) (c : Nat),
      (innerLoop oo dr l c).opCount = c + l.length := by
  intro l
  induction l with
  | nil => intro c; rfl
  | cons hd tl ih =>
    intro c
    obtain ⟨eid, info⟩ := hd
    rw [innerLoop_cons]
    have := ih (c + 1)
    simp only [List.length_cons]
    omega

theorem innerLoop_length (oo : Nat → Nat → HttpOutcome) (dr : DateRange) :
    ∀ (l : List (String × DataInfo)) (c : Nat),
      (innerLoop oo dr l c).records.length = l.length := by
  intro l
  induction l with
  | nil => intro c; rfl
  | cons hd tl ih =>
    intro c
    obtain ⟨eid, info⟩ := hd
    obtain ⟨r, hr, _, _⟩ := make_filtered_import_request_result_some (oo (c + 1)) eid
      dr.start_date dr.end_date info 3 (by norm_num)
    rw [innerLoop_cons]
    simp [hr, ih (c + 1)]

theorem innerLoop_getD (oo : Nat → Nat → HttpOutcome) (dr : DateRange) :
    ∀ (l : List (String × DataInfo)) (c j : Nat), j < l.length →
      (innerLoop oo dr l c).records.getD j dfltRec
        = decorate ((make_filtered_import_request (oo (c + j + 1))
              (l.getD j dfltEntry).1 dr.start_date dr.end_date
              (l.getD j dfltEntry).2 3).result.getD dfltRes)
            dr (c + j + 1) := by
  intro l
  induction l with
  | nil => intro c j hj; simp at hj
  | cons hd tl ih =>
    intro c j hj
    obtain ⟨eid, info⟩ := hd
    obtain ⟨r, hr, _, _⟩ := make_filtered_import_request_result_some (oo (c + 1)) eid
      dr.start_date dr.end_date info 3 (by norm_num)
    rw [innerLoop_cons]
    cases j with
    | zero =>
      simp [hr, List.getD_cons_zero]
    | succ j' =>
      have hrecs : ((make_filtered_import_request (oo (c + 1)) eid dr.start_date
            dr.end_date info 3).result.map (fun r => decorate r dr (c + 1))).toList
          = [decorate r dr (c + 1)] := by
        rw [hr]; rfl
      simp only [hrecs, List.singleton_append, List.getD_cons_succ]
      have e1 : c + (j' + 1) + 1 = c + 1 + j' + 1 := by omega
      rw [e1]
      exact ih (c + 1) j' (by simpa using hj)

theorem innerLoop_reqs (oo : Nat → Nat → HttpOutcome) (dr : DateRange) :
    ∀ (l : List (String × DataInfo)) (c : Nat) (req : HttpRequest),
      req ∈ (innerLoop oo dr l c).reqs →
      req.method = Method.post ∧ req.timeout = 300 := by
  intro l
  induction l with
  | nil => intro c req h; simp [innerLoop] at h
  | cons hd tl ih =>
    intro c req h
    obtain ⟨eid, info⟩ := hd
    rw [innerLoop_cons] at h
    rcases List.mem_append.mp h with h1 | h2
    · have hreqs : (make_filtered_import_request (oo (c + 1)) eid dr.start_date
          dr.end_date info 3).requests
            = List.replicate (make_filtered_import_request (oo (c + 1)) eid
                dr.start_date dr.end_date info 3).attempts
              (requestFor eid dr.start_date dr.end_date) := rfl
      rw [hreqs] at h1
      rw [List.eq_of_mem_replicate h1]
      exact ⟨rfl, rfl⟩
    · exact ih (c + 1) req h2

theorem outerLoop_cons (oo : Nat → Nat → HttpOutcome) (dr : DateRange)
    (rest : List DateRange) (c : Nat) :
    outerLoop oo (dr :: rest) c =
      { records := (innerLoop oo dr EXPORT_MAPPINGS c).records
          ++ (outerLoop oo rest (innerLoop oo dr EXPORT_MAPPINGS c).opCount).records
        reqs := (innerLoop oo dr EXPORT_MAPPINGS c).reqs
          ++ (outerLoop oo rest (innerLoop oo dr EXPORT_MAPPINGS c).opCount).reqs
        opCount :=
          (outerLoop oo rest (innerLoop oo dr EXPORT_MAPPINGS c).opCount).opCount } :=
  rfl

theorem EXPORT_MAPPINGS_length : EXPORT_MAPPINGS.length = 10 := rfl

theorem outerLoop_length (oo : Nat → Nat → HttpOutcome) :
    ∀ (drs : List DateRange) (c : Nat),
      (outerLoop oo drs c).records.length = drs.length * 10 := by
  intro drs
  induction drs with
  | nil => intro c; rfl
  | cons dr rest ih =>
    intro c
    rw [outerLoop_cons]
    simp only [List.length_append, innerLoop_length, EXPORT_MAPPINGS_length,
      ih, List.length_cons]
    omega

theorem outerLoop_reqs (oo : Nat → Nat → HttpOutcome) :
    ∀ (drs : List DateRange) (c : Nat) (req : HttpRequest),
      req ∈ (outerLoop oo drs c).reqs →
      req.method = Method.post ∧ req.timeout = 300 := by
  intro drs
  induction drs with
  | nil => intro c req h; simp [outerLoop] at h
  | cons dr rest ih =>
    intro c req h
    rw [outerLoop_cons] at h
    rcases List.mem_append.mp h with h1 | h2
    · exact innerLoop_reqs oo dr EXPORT_MAPPINGS c req h1
    · exact ih _ req h2

theorem outerLoop_getD (oo : Nat → Nat → HttpOutcome) :
    ∀ (drs : List DateRange) (c i : Nat), i < drs.length * 10 →
      (outerLoop oo drs c).records.getD i dfltRec
        = decorate ((make_filtered_import_request (oo (c + i + 1))
              (EXPORT_MAPPINGS.getD (i % 10) dfltEntry).1
              (drs.getD (i / 10) dfltRange).start_date
              (drs.getD (i / 10) dfltRange).end_date
              (EXPORT_MAPPINGS.getD (i % 10) dfltEntry).2 3).result.getD dfltRes)
            (drs.getD (i / 10) dfltRange) (c + i + 1) := by
  intro drs
  induction drs with
  | nil => intro c i hi; simp at hi
  | cons dr rest ih =>
    intro c i hi
    rw [outerLoop_cons]
    have hIlen : (innerLoop oo dr EXPORT_MAPPINGS c).records.length = 10 := by
      rw [innerLoop_length]; rfl
    have hIop : (innerLoop oo dr EXPORT_MAPPINGS c).opCount = c + 10 := by
      rw [innerLoop_opCount]; rfl
    by_cases h10 : i < 10
    · rw [listGetDAppendLeft _ _ _ _ (by rw [hIlen]; exact h10)]
      have e1 : i % 10 = i := by omega
      have e2 : i / 10 = 0 := by omega
      rw [e1, e2, List.getD_cons_zero]
      exact innerLoop_getD oo dr EXPORT_MAPPINGS c i (by rw [EXPORT_MAPPINGS_length]; exact h10)
    · rw [listGetDAppendRight _ _ _ _ (by rw [hIlen]; omega), hIlen, hIop]
      have e3 : c + i + 1 = c + 10 + (i - 10) + 1 := by omega
      have e4 : i % 10 = (i - 10) % 10 := by omega
      have e5 : i / 10 = (i - 10) / 10 + 1 := by omega
      rw [e3, e4, e5, List.getD_cons_succ]
      exact ih (c + 10) (i - 10) (by simp only [List.length_cons] at hi; omega)

/-! ## Claims about `main` -/

/-- C3: on a run that completes normally, the number of accumulated results
equals (number of windows) × (number of catalog entries, which is 10);
result `i` (0-based) belongs to window `i / 10` (chronological order) and
catalog entry `i % 10` (declaration order), carries that window's label and
start/end dates, and its sequence number `operation_number` is `i + 1`. -/
theorem main_results_run (w : World)
    (hok : test_server_connectivity w.healthOutcome = true)
    (hconf : (autoMode w.argv || confirmYes w.confirmInput) = true) :
    (main w).results
      = (outerLoop w.opOutcome (generate_date_ranges w.now) 0).records := by
  unfold main
  rw [hok, hconf, if_pos rfl, if_pos rfl]

theorem main_result_count_and_order (w : World)
    (hok : test_server_connectivity w.healthOutcome = true)
    (hconf : (autoMode w.argv || confirmYes w.confirmInput) = true) :
    (main w).results.length
      = (generate_date_ranges w.now).length * EXPORT_MAPPINGS.length ∧
    EXPORT_MAPPINGS.length = 10 ∧
    (∀ i, i < (main w).results.length →
      ((main w).results.getD i dfltRec).month_name
        = ((generate_date_ranges w.now).getD (i / 10) dfltRange).month_name ∧
      ((main w).results.getD i dfltRec).start_date
        = ((generate_date_ranges w.now).getD (i / 10) dfltRange).start_date ∧
      ((main w).results.getD i dfltRec).end_date
        = ((generate_date_ranges w.now).getD (i / 10) dfltRange).end_date ∧
      ((main w).results.getD i dfltRec).operation_number = i + 1 ∧
      ((main w).results.getD i dfltRec).base.dataType
        = (EXPORT_MAPPINGS.getD (i % 10) dfltEntry).2.name ∧
      ((main w).results.getD i dfltRec).base.exportIdOf
        = (EXPORT_MAPPINGS.getD (i % 10) dfltEntry).1) := by
  have hres := main_results_run w hok hconf
  have hlen : (main w).results.length = (generate_date_ranges w.now).length * 10 := by
    rw [hres, outerLoop_length]
  refine ⟨by rw [hlen, EXPORT_MAPPINGS_length], rfl, ?_⟩
  intro i hi
  have hi' : i < (generate_date_ranges w.now).length * 10 := by rw [← hlen]; exact hi
  have hgot := outerLoop_getD w.opOutcome (generate_date_ranges w.now) 0 i hi'
  rw [hres, hgot]
  obtain ⟨r, hr, hdt, hei⟩ := make_filtered_import_request_result_some
    (w.opOutcome (0 + i + 1)) (EXPORT_MAPPINGS.getD (i % 10) dfltEntry).1
    ((generate_date_ranges w.now).getD (i / 10) dfltRange).start_date
    ((generate_date_ranges w.now).getD (i / 10) dfltRange).end_date
    (EXPORT_MAPPINGS.getD (i % 10) dfltEntry).2 3 (by norm_num)
  rw [hr]
  refine ⟨?_, ?_, ?_, ?_, ?_, ?_⟩
  · simp [decorate]
  · simp [decorate]
  · simp [decorate]
  · simp [decorate]
  · simpa [decorate] using hdt
  · simpa [decorate] using hei

/-- Parsed health body used by witness worlds. -/
def okBody : ParsedBody :=
  { truthy := true, success := true, message := none, results := none, duration := none }

/-- A world whose probe succeeds, running unattended with `--auto`, with
every import attempt failing at transport level, and the results-file
write failing. -/
def wAutoRun : World :=
  { healthOutcome := HttpOutcome.resp 200 "" (.ok okBody)
    now := ⟨2025, 7, 15⟩
    argv := ["bulk_import.py", "--auto"]
    confirmInput := ""
    opOutcome := fun _ _ => HttpOutcome.exn "connection refused"
    saveOk := false }

/-- Witness for C3 at `wAutoRun` (2 windows × 10 entries = 20 results). -/
theorem main_result_count_and_order_witness :
    test_server_connectivity wAutoRun.healthOutcome = true ∧
    (autoMode wAutoRun.argv || confirmYes wAutoRun.confirmInput) = true ∧
    (main wAutoRun).results.length
      = (generate_date_ranges wAutoRun.now).length * EXPORT_MAPPINGS.length :=
  ⟨rfl, rfl, (main_result_count_and_order wAutoRun rfl rfl).1⟩

/-- C4: if the connectivity probe fails (the GET raises or returns a
non-200 status), the run exits with code 1, the only HTTP request ever
issued is the single health GET (no import request, no retry of the probe),
no results accumulate, and no summary is printed. -/
theorem connectivity_failure_fail_fast (w : World)
    (hfail : (∃ msg, w.healthOutcome = HttpOutcome.exn msg) ∨
      (∃ status text body, w.healthOutcome = HttpOutcome.resp status text body
        ∧ status ≠ 200)) :
    (main w).exitCode = 1 ∧
    (main w).requests = [healthRequest] ∧
    (main w).results = [] ∧
    (main w).summaryPrinted = false := by
  have hconn : test_server_connectivity w.healthOutcome = false := by
    rcases hfail with ⟨msg, hm⟩ | ⟨s, t, b, hm, hs⟩
    · rw [hm]; rfl
    · rw [hm]; simp [test_server_connectivity, hs]
  simp [main, hconn]

/-- A world whose probe raises a transport exception. -/
def wProbeFail : World :=
  { healthOutcome := HttpOutcome.exn "connection refused"
    now := ⟨2025, 7, 15⟩
    argv := ["bulk_import.py"]
    confirmInput := ""
    opOutcome := fun _ _ => HttpOutcome.exn "connection refused"
    saveOk := true }

/-- Witness for C4 at `wProbeFail`. -/
theorem connectivity_failure_fail_fast_witness :
    ((∃ msg, wProbeFail.healthOutcome = HttpOutcome.exn msg) ∨
      (∃ status text body, wProbeFail.healthOutcome
          = HttpOutcome.resp status text body ∧ status ≠ 200)) ∧
    ((main wProbeFail).exitCode = 1 ∧
     (main wProbeFail).requests = [healthRequest] ∧
     (main wProbeFail).results = [] ∧
     (main wProbeFail).summaryPrinted = false) :=
  ⟨Or.inl ⟨"connection refused", rfl⟩,
   connectivity_failure_fail_fast wProbeFail (Or.inl ⟨"connection refused", rfl⟩)⟩

/-- C8: a failure of `save_results_to_file` is caught inside it; on an
otherwise normal run the summary is still printed afterwards, the save error
is reported, and the process exits with code 0. -/
theorem save_failure_nonfatal (w : World)
    (hok : test_server_connectivity w.healthOutcome = true)
    (hconf : (autoMode w.argv || confirmYes w.confirmInput) = true)
    (hsave : w.saveOk = false) :
    (main w).exitCode = 0 ∧
    (main w).summaryPrinted = true ∧
    (main w).saveAttempted = true ∧
    (main w).saveErrorReported = true := by
  simp [main, hok, hconf, save_results_to_file, hsave]

/-- Witness for C8 at `wAutoRun` (whose results-file write fails). -/
theorem save_failure_nonfatal_witness :
    test_server_connectivity wAutoRun.healthOutcome = true ∧
    (autoMode wAutoRun.argv || confirmYes wAutoRun.confirmInput) = true ∧
    wAutoRun.saveOk = false ∧
    ((main wAutoRun).exitCode = 0 ∧
     (main wAutoRun).summaryPrinted = true ∧
     (main wAutoRun).saveAttempted = true ∧
     (main wAutoRun).saveErrorReported = true) :=
  ⟨rfl, rfl, rfl, save_failure_nonfatal wAutoRun rfl rfl rfl⟩

/-- C9 counterexample: it is false that every HTTP request the program makes
uses a 300-unit timeout — the health probe of `test_server_connectivity`
uses `timeout=10` (source line 141), as the run `wProbeFail` shows. -/
theorem all_requests_timeout_300_false :
    ¬ ∀ (w : World), ∀ req ∈ (main w).requests, req.timeout = 300 := by
  intro hall
  have h := hall wProbeFail healthRequest (by decide)
  simp [healthRequest] at h

/-- C9 (amended): every request's timeout is at most 300; the import POSTs
use exactly 300, while the health GET uses exactly 10. -/
theorem request_timeouts_amended (w : World) (req : HttpRequest)
    (hreq : req ∈ (main w).requests) :
    req.timeout ≤ 300 ∧
    (req.method = Method.post → req.timeout = 300) ∧
    (req.method = Method.get → req.timeout = 10) := by
  have hcases : req = healthRequest ∨
      (req.method = Method.post ∧ req.timeout = 300) := by
    by_cases h1 : test_server_connectivity w.healthOutcome = true
    · by_cases h2 : (autoMode w.argv || confirmYes w.confirmInput) = true
      · have hreqs : (main w).requests
            = healthRequest
              :: (outerLoop w.opOutcome (generate_date_ranges w.now) 0).reqs := by
          simp [main, h1, h2]
        rw [hreqs] at hreq
        rcases List.mem_cons.mp hreq with h | h
        · exact Or.inl h
        · exact Or.inr (outerLoop_reqs w.opOutcome _ 0 req h)
      · have hreqs : (main w).requests = [healthRequest] := by
          simp only [Bool.not_eq_true] at h2
          simp [main, h1, h2]
        rw [hreqs] at hreq
        exact Or.inl (List.mem_singleton.mp hreq)
    · have hreqs : (main w).requests = [healthRequest] := by
        simp only [Bool.not_eq_true] at h1
        simp [main, h1]
      rw [hreqs] at hreq
      exact Or.inl (List.mem_singleton.mp hreq)
  rcases hcases with h | ⟨hm, ht⟩
  · subst h
    refine ⟨by norm_num [healthRequest], ?_, fun _ => rfl⟩
    intro hp
    simp [healthRequest] at hp
  · rw [ht]
    refine ⟨le_refl 300, fun _ => rfl, ?_⟩
    intro hg
    rw [hm] at hg
    simp at hg

/-- Witness for the amended C9 at `wProbeFail` and the health request. -/
theorem request_timeouts_amended_witness :
    healthRequest ∈ (main wProbeFail).requests ∧
    (healthRequest.timeout ≤ 300 ∧
     (healthRequest.method = Method.post → healthRequest.timeout = 300) ∧
     (healthRequest.method = Method.get → healthRequest.timeout = 10)) :=
  ⟨by decide, request_timeouts_amended wProbeFail healthRequest (by decide)⟩

end BulkImport
